import Mathlib

/-!
Verification of the task-management MCP server (src/index.js).

The file embeds the two request handlers of the server — the tool catalog
handler and the call-tool dispatcher — as pure Lean functions and proves the
specified properties about them.

Modelling choices, each matching the JavaScript source:
- JSON-compatible values are the inductive `JsonValue`; JavaScript numbers are
  modelled as integers (every number occurring in the handlers is an integer:
  the `page` argument is declared `integer`, and no arithmetic is performed).
- The argument bag of an invocation is an association list
  `List (String × JsonValue)`; reading property `k` of the bag (`args.k`)
  is `getArg k args`, returning `none` for a missing key, which models the
  JavaScript value `undefined`.
- `fetch` is a parameter of the dispatcher: a function from a `Request` to
  either a thrown transport error (`Except.error msg`) or a `Response` whose
  `json` field models the result of `response.json()` (`Except.error` when the
  body is not valid JSON, mirroring the rejection of the promise).
- `JSON.stringify(x)` and `JSON.stringify(x, null, 2)` are `jsonStringify`
  and `jsonStringifyPretty`; `URLSearchParams.toString()` is `serializeParams`
  composed with the WHATWG application/x-www-form-urlencoded serializer
  (`formUrlEncode`): space becomes `+`, ASCII alphanumerics and `*` `-` `.` `_`
  are kept, every other UTF-8 byte is percent-encoded with uppercase hex.
- Exceptions inside the `try` block are `Except.error` values threaded through
  `callToolTry`; the `catch` clause is the wrapper `handleCallTool`, which also
  returns the list of HTTP requests issued (the trace), so that theorems can
  speak about the outbound request of an invocation.
-/

/-- JSON-compatible values (numbers restricted to integers, see the header). -/
inductive JsonValue where
  | null
  | bool (b : Bool)
  | num (n : Int)
  | str (s : String)
  | arr (elems : List JsonValue)
  | obj (fields : List (String × JsonValue))

/-- Argument bag of a tool invocation: the JS object `request.params.arguments`. -/
abbrev Args := List (String × JsonValue)

/-- Property read `args.k` on the argument bag; `none` models `undefined`. -/
def getArg (key : String) : Args → Option JsonValue
  | [] => none
  | (k, v) :: rest => if key = k then some v else getArg key rest

/-- JavaScript truthiness of a JSON value (`if (x)`): `null`, `false`, `0`
and the empty string are falsy, arrays and objects are truthy. -/
def jsTruthy : JsonValue → Bool
  | .null => false
  | .bool b => b
  | .num n => n != 0
  | .str s => s != ""
  | .arr _ => true
  | .obj _ => true

mutual

/-- JavaScript string conversion `String(x)` / `x.toString()` of a JSON value:
numbers print in decimal, arrays join their elements with commas (null
elements become empty), plain objects print as `[object Object]`. -/
def jsToString : JsonValue → String
  | .null => "null"
  | .bool b => if b then "true" else "false"
  | .num n => Int.repr n
  | .str s => s
  | .arr xs => jsArrayJoin xs
  | .obj _ => "[object Object]"

/-- `Array.prototype.toString`: join with `,`, where a `null` element
contributes the empty string. -/
def jsArrayJoin : List JsonValue → String
  | [] => ""
  | [JsonValue.null] => ""
  | [x] => jsToString x
  | JsonValue.null :: y :: rest => "," ++ jsArrayJoin (y :: rest)
  | x :: y :: rest => jsToString x ++ "," ++ jsArrayJoin (y :: rest)

end

/-- Template-literal interpolation of a possibly-undefined value
(as in the source expressions of the form base + "/" + task_id):
`undefined` interpolates as the string `undefined`. -/
def jsTemplate : Option JsonValue → String
  | none => "undefined"
  | some v => jsToString v

/-- Lowercase hexadecimal digit, used by the `\u00xx` escapes of
`JSON.stringify`. -/
def hexDigitLower (n : Nat) : Char :=
  if n < 10 then Char.ofNat (48 + n) else Char.ofNat (87 + n)

/-- Uppercase hexadecimal digit, used by percent-encoding. -/
def hexDigitUpper (n : Nat) : Char :=
  if n < 10 then Char.ofNat (48 + n) else Char.ofNat (55 + n)

/-- Escaping of one character inside a JSON string literal, as performed by
`JSON.stringify`. -/
def escapeJsonChar (c : Char) : String :=
  if c = '"' then "\\\""
  else if c = '\\' then "\\\\"
  else if c = '\x08' then "\\b"
  else if c = '\t' then "\\t"
  else if c = '\n' then "\\n"
  else if c = '\x0c' then "\\f"
  else if c = '\r' then "\\r"
  else if c.toNat < 32 then
    "\\u00" ++ String.mk [hexDigitLower (c.toNat / 16), hexDigitLower (c.toNat % 16)]
  else String.mk [c]

/-- A JSON string literal with its quotes, as produced by `JSON.stringify`. -/
def jsonQuote (s : String) : String :=
  "\"" ++ String.join (s.data.map escapeJsonChar) ++ "\""

mutual

/-- Compact serialization `JSON.stringify(v)`. -/
def jsonStringify : JsonValue → String
  | .null => "null"
  | .bool b => if b then "true" else "false"
  | .num n => Int.repr n
  | .str s => jsonQuote s
  | .arr xs => "[" ++ stringifyElems xs ++ "]"
  | .obj fs => "\x7b" ++ stringifyFields fs ++ "\x7d"

/-- Comma-separated serialization of array elements. -/
def stringifyElems : List JsonValue → String
  | [] => ""
  | [x] => jsonStringify x
  | x :: y :: rest => jsonStringify x ++ "," ++ stringifyElems (y :: rest)

/-- Comma-separated serialization of object fields. -/
def stringifyFields : List (String × JsonValue) → String
  | [] => ""
  | [(k, v)] => jsonQuote k ++ ":" ++ jsonStringify v
  | (k, v) :: f :: rest =>
    jsonQuote k ++ ":" ++ jsonStringify v ++ "," ++ stringifyFields (f :: rest)

end

/-- A run of `n` spaces, for pretty-printing indentation. -/
def spaces : Nat → String
  | 0 => ""
  | n + 1 => " " ++ spaces n

mutual

/-- Pretty serialization `JSON.stringify(v, null, 2)` at indentation `ind`:
non-empty arrays and objects open a line, indent their items by two more
spaces, and close at the current indentation. -/
def jsonPretty (ind : Nat) : JsonValue → String
  | .arr [] => "[]"
  | .arr (x :: xs) => "[\n" ++ prettyElems (ind + 2) (x :: xs) ++ "\n" ++ spaces ind ++ "]"
  | .obj [] => "\x7b\x7d"
  | .obj (f :: fs) =>
    "\x7b\n" ++ prettyFields (ind + 2) (f :: fs) ++ "\n" ++ spaces ind ++ "\x7d"
  | .null => "null"
  | .bool b => if b then "true" else "false"
  | .num n => Int.repr n
  | .str s => jsonQuote s

/-- Pretty-printed array elements, one per line, separated by commas. -/
def prettyElems (ind : Nat) : List JsonValue → String
  | [] => ""
  | [x] => spaces ind ++ jsonPretty ind x
  | x :: y :: rest =>
    spaces ind ++ jsonPretty ind x ++ ",\n" ++ prettyElems ind (y :: rest)

/-- Pretty-printed object fields, one per line, separated by commas. -/
def prettyFields (ind : Nat) : List (String × JsonValue) → String
  | [] => ""
  | [(k, v)] => spaces ind ++ jsonQuote k ++ ": " ++ jsonPretty ind v
  | (k, v) :: f :: rest =>
    spaces ind ++ jsonQuote k ++ ": " ++ jsonPretty ind v ++ ",\n" ++
      prettyFields ind (f :: rest)

end

/-- Top-level pretty serialization, `JSON.stringify(v, null, 2)`. -/
def jsonStringifyPretty (v : JsonValue) : String :=
  jsonPretty 0 v

/-- `JSON.stringify` of an object literal whose property values may be
`undefined` (`none`): such properties are dropped from the output, as for
the body literal of the add_task case. -/
def stringifyMaybeFields (fields : List (String × Option JsonValue)) : String :=
  "\x7b" ++
    String.intercalate ","
      (fields.filterMap fun kv => kv.2.map fun v => jsonQuote kv.1 ++ ":" ++ jsonStringify v) ++
    "\x7d"

/-- UTF-8 encoding of one character, as a list of byte values. -/
def utf8Bytes (c : Char) : List Nat :=
  let n := c.toNat
  if n < 128 then [n]
  else if n < 2048 then [192 + n / 64, 128 + n % 64]
  else if n < 65536 then [224 + n / 4096, 128 + n / 64 % 64, 128 + n % 64]
  else [240 + n / 262144, 128 + n / 4096 % 64, 128 + n / 64 % 64, 128 + n % 64]

/-- One byte under the WHATWG application/x-www-form-urlencoded serializer:
space becomes `+`; ASCII alphanumerics and `*` `-` `.` `_` are kept;
everything else is percent-encoded with uppercase hex digits. -/
def formUrlEncodeByte (b : Nat) : String :=
  if b = 32 then "+"
  else if (48 ≤ b && b ≤ 57) || (65 ≤ b && b ≤ 90) ||
          (97 ≤ b && b ≤ 122) || b = 42 || b = 45 ||
          b = 46 || b = 95 then
    String.mk [Char.ofNat b]
  else
    String.mk ['%', hexDigitUpper (b / 16), hexDigitUpper (b % 16)]

/-- Form-urlencoding of a string: encode its UTF-8 bytes one by one. -/
def formUrlEncode (s : String) : String :=
  String.join ((s.data.flatMap utf8Bytes).map formUrlEncodeByte)

/-- `URLSearchParams.toString()`: the pairs in insertion order, each rendered
`key=value` with both sides form-urlencoded, joined by `&`. -/
def serializeParams : List (String × String) → String
  | [] => ""
  | [(k, v)] => formUrlEncode k ++ "=" ++ formUrlEncode v
  | (k, v) :: p :: rest =>
    formUrlEncode k ++ "=" ++ formUrlEncode v ++ "&" ++ serializeParams (p :: rest)

/-- Declarative parameter schema of one tool parameter (discovery metadata). -/
structure PropertySchema where
  type : String
  description : String
deriving DecidableEq

/-- Input schema of a tool: a JSON-schema object with named properties and a
list of required property names. -/
structure InputSchema where
  type : String
  properties : List (String × PropertySchema)
  required : List String
deriving DecidableEq

/-- A tool descriptor of the catalog. -/
structure ToolDescriptor where
  name : String
  description : String
  inputSchema : InputSchema
deriving DecidableEq

/-- The ListToolsRequestSchema handler: the static catalog of the four tools,
in source order. -/
def listTools : List ToolDescriptor :=
  [ { name := "add_task"
    , description := "Creates a new to-do item on the list. Requires the name parameter."
    , inputSchema :=
      { type := "object"
      , properties :=
        [ ("name",
           { type := "string"
           , description := "The concise title of the task to be added." })
        , ("description",
           { type := "string"
           , description := "The brief summary of the task." }) ]
      , required := ["name"] } }
  , { name := "list_tasks"
    , description := "Retrieves tasks, allowing for filtering and sorting via PocketBase query syntax. Use \x27filter\x27 for specific criteria (e.g., pending tasks)."
    , inputSchema :=
      { type := "object"
      , properties :=
        [ ("filter",
           { type := "string"
           , description := "PocketBase filter string to select specific records (e.g., (done=false) for pending tasks). Use parentheses for conditions." })
        , ("sort",
           { type := "string"
           , description := "PocketBase sort string for ordering results (e.g., \x27-created\x27 for newest first, \x27name\x27 for alphabetical)." })
        , ("page",
           { type := "integer"
           , description := "The page number for paginated results (defaults to 1)." }) ]
      , required := [] } }
  , { name := "update_task"
    , description := "Updates the task identified by task_id. Allows changing name, description, done, or archived status."
    , inputSchema :=
      { type := "object"
      , properties :=
        [ ("task_id",
           { type := "string"
           , description := "The ID of the task to be updated." })
        , ("name",
           { type := "string"
           , description := "The new title of the task." })
        , ("description",
           { type := "string"
           , description := "The new description of the task." })
        , ("done",
           { type := "boolean"
           , description := "A flag that indicates if the task is done." })
        , ("archived",
           { type := "boolean"
           , description := "A flag that specifies if the task is archived." }) ]
      , required := ["task_id"] } }
  , { name := "delete_task"
    , description := "Removes a specific task from the list using its ID."
    , inputSchema :=
      { type := "object"
      , properties :=
        [ ("task_id",
           { type := "string"
           , description := "The ID of the task to be deleted." }) ]
      , required := ["task_id"] } } ]

/-- One content item of a result envelope. -/
structure ContentItem where
  type : String
  text : String
deriving DecidableEq

/-- The result envelope returned by the call-tool handler. `isError := false`
models the JavaScript object without an `isError` property. -/
structure Envelope where
  content : List ContentItem
  isError : Bool
deriving DecidableEq

/-- An outbound HTTP request as assembled for `fetch`: URL, method, headers
and optional string body. A bare `fetch(url)` is a GET with no headers. -/
structure Request where
  url : String
  method : String
  headers : List (String × String)
  body : Option String
deriving DecidableEq

/-- An HTTP response as seen by the handler: its status code and the result
of `response.json()` (`Except.error` when the body is not valid JSON). -/
structure Response where
  status : Nat
  json : Except String JsonValue

/-- The `response.ok` property of the Fetch API: status in the range 200-299. -/
def Response.ok (r : Response) : Bool :=
  200 ≤ r.status && r.status ≤ 299

/-- The environment's `fetch`: performs one request, either throwing a
transport error or producing a response. -/
abbrev Fetch := Request → Except String Response

/-- Request of the add_task case: POST to the base address, JSON content
type, body the object literal with the `name` and `description` arguments
(an `undefined` one is dropped by `JSON.stringify`). -/
def addTaskRequest (base : String) (args : Args) : Request :=
  { url := base
  , method := "POST"
  , headers := [("Content-Type", "application/json")]
  , body := some (stringifyMaybeFields
      [("name", getArg "name" args), ("description", getArg "description" args)]) }

/-- One conditional `params.append(key, value)` of the list_tasks case:
appends the pair only when the argument is present and truthy, with the value
converted to a string. -/
def paramEntry (key : String) : Option JsonValue → List (String × String)
  | none => []
  | some v => if jsTruthy v then [(key, jsToString v)] else []

/-- The `URLSearchParams` accumulated by the list_tasks case: `filter`, then
`sort`, then `page`, each appended only when supplied and truthy. -/
def listTasksParams (args : Args) : List (String × String) :=
  paramEntry "filter" (getArg "filter" args) ++
    paramEntry "sort" (getArg "sort" args) ++
    paramEntry "page" (getArg "page" args)

/-- The list_tasks URL: the base address, with `?` and the serialized
parameters appended only when the serialization is non-empty (the truthiness
test on `params.toString()`). -/
def listTasksUrl (base : String) (args : Args) : String :=
  if serializeParams (listTasksParams args) = "" then base
  else base ++ "?" ++ serializeParams (listTasksParams args)

/-- Request of the list_tasks case: a plain GET to `listTasksUrl`. -/
def listTasksRequest (base : String) (args : Args) : Request :=
  { url := listTasksUrl base args, method := "GET", headers := [], body := none }

/-- The rest-spread `const (task_id, ...updateData) = args` of the update_task
case: every field of the bag except `task_id`, in order. -/
def removeTaskId (args : Args) : Args :=
  args.filter fun kv => kv.1 != "task_id"

/-- Body of the update_task case: `JSON.stringify(updateData)`. -/
def updateTaskBody (args : Args) : String :=
  jsonStringify (JsonValue.obj (removeTaskId args))

/-- Request of the update_task case: PATCH to base/task_id (the id
interpolated as in a template literal), JSON content type, body the
remaining fields. -/
def updateTaskRequest (base : String) (args : Args) : Request :=
  { url := base ++ "/" ++ jsTemplate (getArg "task_id" args)
  , method := "PATCH"
  , headers := [("Content-Type", "application/json")]
  , body := some (updateTaskBody args) }

/-- Request of the delete_task case: DELETE to base/task_id. -/
def deleteTaskRequest (base : String) (args : Args) : Request :=
  { url := base ++ "/" ++ jsTemplate (getArg "task_id" args)
  , method := "DELETE"
  , headers := []
  , body := none }

/-- The envelope returned by the three JSON-returning cases: a single text
item holding the pretty-printed response body, no error flag. -/
def jsonEnvelope (data : JsonValue) : Envelope :=
  { content := [{ type := "text", text := jsonStringifyPretty data }]
  , isError := false }

/-- The envelope produced by the catch clause. -/
def errorEnvelope (msg : String) : Envelope :=
  { content := [{ type := "text", text := "Error: " ++ msg }]
  , isError := true }

/-- The envelope of the delete_task case: one of two fixed messages chosen by
`response.ok` alone, no error flag. -/
def deleteEnvelope (args : Args) (resp : Response) : Envelope :=
  { content :=
      [{ type := "text"
       , text :=
          if resp.ok then
            "Task " ++ jsTemplate (getArg "task_id" args) ++ " deleted successfully"
          else
            "Failed to delete task " ++ jsTemplate (getArg "task_id" args) }]
  , isError := false }

/-- Shared shape of the add_task / list_tasks / update_task cases: perform the
request, parse the body as JSON, envelope the pretty-printed data; a transport
or parse error escapes as `Except.error`. Also returns the issued requests. -/
def jsonOutcome (fetch : Fetch) (req : Request) :
    Except String Envelope × List Request :=
  match fetch req with
  | Except.error e => (Except.error e, [req])
  | Except.ok resp =>
    match resp.json with
    | Except.error e => (Except.error e, [req])
    | Except.ok data => (Except.ok (jsonEnvelope data), [req])

/-- The body of the `try` block of the call-tool handler: the `switch` on the
tool name (a JavaScript `switch` compares the scrutinee for equality with each
case label in order), with the default case throwing the unknown-tool error.
Returns the outcome together with the list of HTTP requests issued. -/
def callToolTry (fetch : Fetch) (base toolName : String) (args : Args) :
    Except String Envelope × List Request :=
  if toolName = "add_task" then
    jsonOutcome fetch (addTaskRequest base args)
  else if toolName = "list_tasks" then
    jsonOutcome fetch (listTasksRequest base args)
  else if toolName = "update_task" then
    jsonOutcome fetch (updateTaskRequest base args)
  else if toolName = "delete_task" then
    match fetch (deleteTaskRequest base args) with
    | Except.error e => (Except.error e, [deleteTaskRequest base args])
    | Except.ok resp => (Except.ok (deleteEnvelope args resp), [deleteTaskRequest base args])
  else
    (Except.error ("Unknown tool: " ++ toolName), [])

/-- The CallToolRequestSchema handler: the `try` body wrapped in the `catch`
clause, which converts any escaped exception into an error-flagged envelope.
The second component is the list of HTTP requests issued. -/
def handleCallTool (fetch : Fetch) (base toolName : String) (args : Args) :
    Envelope × List Request :=
  match callToolTry fetch base toolName args with
  | (Except.ok env, reqs) => (env, reqs)
  | (Except.error msg, reqs) => (errorEnvelope msg, reqs)

/-- The trace of issued requests is unaffected by the catch clause. -/
theorem handleCallTool_snd (fetch : Fetch) (base toolName : String) (args : Args) :
    (handleCallTool fetch base toolName args).2 =
      (callToolTry fetch base toolName args).2 := by
  unfold handleCallTool
  rcases h : callToolTry fetch base toolName args with ⟨e, reqs⟩
  cases e <;> simp

/-- A JSON-returning case issues exactly its one request. -/
theorem jsonOutcome_snd (fetch : Fetch) (req : Request) :
    (jsonOutcome fetch req).2 = [req] := by
  unfold jsonOutcome
  cases hf : fetch req with
  | error e => rfl
  | ok resp => cases hj : resp.json <;> simp [hj]

/-- Claim C1: every invocation of the call-tool handler returns exactly one
result envelope (the handler is a total function into `Envelope`), and any
exception escaping the try body — transport failure, JSON parse failure, or
the thrown unknown-tool error — is caught at the boundary and converted into
an envelope whose sole text is `Error: ` followed by the exception message,
with the error flag set. -/
theorem c1_catch_boundary (fetch : Fetch) (base toolName : String) (args : Args)
    (msg : String) (reqs : List Request)
    (h : callToolTry fetch base toolName args = (Except.error msg, reqs)) :
    handleCallTool fetch base toolName args =
      ({ content := [{ type := "text", text := "Error: " ++ msg }], isError := true }, reqs) := by
  simp [handleCallTool, h, errorEnvelope]

/-- Witness for C1 at a concrete failing invocation (unknown tool name). -/
theorem c1_catch_boundary_witness :
    handleCallTool (fun _ => Except.error "boom") "http://b" "nope" [] =
      ({ content := [{ type := "text", text := "Error: Unknown tool: nope" }], isError := true }, []) :=
  c1_catch_boundary _ _ _ _ _ _ rfl

/-- Claim C2: the catalog handler is a constant: it returns exactly four
descriptors, in the order add_task, list_tasks, update_task, delete_task,
whose required-field lists are respectively [name], [], [task_id], [task_id]. -/
theorem c2_catalog :
    listTools.map (fun t => (t.name, t.inputSchema.required)) =
      [("add_task", ["name"]), ("list_tasks", ([] : List String)),
       ("update_task", ["task_id"]), ("delete_task", ["task_id"])] := rfl

/-- Claim C3: an invocation naming a tool other than the registered four
returns (without throwing) an error-flagged envelope whose sole text is
`Error: Unknown tool: ` followed by the name, and issues no HTTP request. -/
theorem c3_unknown_tool (fetch : Fetch) (base toolName : String) (args : Args)
    (h1 : toolName ≠ "add_task") (h2 : toolName ≠ "list_tasks")
    (h3 : toolName ≠ "update_task") (h4 : toolName ≠ "delete_task") :
    handleCallTool fetch base toolName args =
      ({ content := [{ type := "text", text := "Error: Unknown tool: " ++ toolName }], isError := true }, []) := by
  have h0 : ("Error: Unknown tool: " : String) = "Error: " ++ "Unknown tool: " := rfl
  rw [h0, String.append_assoc]
  simp [handleCallTool, callToolTry, h1, h2, h3, h4, errorEnvelope]

/-- Witness for C3 at the tool name `frobnicate`. -/
theorem c3_unknown_tool_witness :
    handleCallTool (fun _ => Except.error "refused") "http://b" "frobnicate" [] =
      ({ content := [{ type := "text", text := "Error: Unknown tool: frobnicate" }], isError := true }, []) :=
  c3_unknown_tool _ _ _ _ (by decide) (by decide) (by decide) (by decide)

/-- The list_tasks URL when the serialized query is a given non-empty string. -/
theorem listTasksUrl_eq (base : String) (args : Args) (q : String)
    (hq : serializeParams (listTasksParams args) = q) (hne : q ≠ "") :
    listTasksUrl base args = base ++ "?" ++ q := by
  simp [listTasksUrl, hq, hne]

/-- Claim C4 (amended): the counterexample showing the claimed literal query
string is wrong — the form-urlencoded serializer also percent-encodes the
parentheses of the filter expression. -/
theorem c4_counterexample :
    serializeParams (listTasksParams
        [("filter", JsonValue.str "(done=false)"), ("sort", JsonValue.str "-created"),
         ("page", JsonValue.num 2)]) ≠
      "filter=(done%3Dfalse)&sort=-created&page=2" := by decide

/-- Claim C4 (amended): the query parameters are appended in the order
filter, sort, page, with page rendered as its decimal string; when no
parameter is supplied the URL is the bare base address with no `?`; and the
example arguments serialize to `filter=%28done%3Dfalse%29&sort=-created&page=2`
appended after `?`. -/
theorem c4_query_building (f s : String) (n : Int)
    (hf : f ≠ "") (hs : s ≠ "") (hn : n ≠ 0) :
    listTasksParams
        [("filter", JsonValue.str f), ("sort", JsonValue.str s), ("page", JsonValue.num n)] =
      [("filter", f), ("sort", s), ("page", Int.repr n)] ∧
    (∀ base : String, listTasksUrl base [] = base) ∧
    (∀ base : String,
      listTasksUrl base
          [("filter", JsonValue.str "(done=false)"), ("sort", JsonValue.str "-created"),
           ("page", JsonValue.num 2)] =
        base ++ "?filter=%28done%3Dfalse%29&sort=-created&page=2") := by
  refine ⟨?_, ?_, ?_⟩
  · simp [listTasksParams, paramEntry, getArg, jsTruthy, jsToString, hf, hs, hn]
  · intro base
    simp [listTasksUrl, listTasksParams, paramEntry, getArg, serializeParams]
  · intro base
    rw [listTasksUrl_eq base _ _ rfl (by decide), String.append_assoc]
    exact congrArg (fun t => base ++ t) rfl

/-- Witness for C4 at concrete inputs. -/
theorem c4_query_building_witness :
    listTasksParams
        [("filter", JsonValue.str "(done=false)"), ("sort", JsonValue.str "-created"),
         ("page", JsonValue.num 2)] =
      [("filter", "(done=false)"), ("sort", "-created"), ("page", "2")] ∧
    (∀ base : String, listTasksUrl base [] = base) ∧
    (∀ base : String,
      listTasksUrl base
          [("filter", JsonValue.str "(done=false)"), ("sort", JsonValue.str "-created"),
           ("page", JsonValue.num 2)] =
        base ++ "?filter=%28done%3Dfalse%29&sort=-created&page=2") :=
  c4_query_building "(done=false)" "-created" 2 (by decide) (by decide) (by decide)

/-- Claim C5: an add_task invocation with argument bag containing exactly
`name = "Buy milk"` issues exactly one POST request to the base address with
JSON content type whose body drops the undefined description, and — when the
store responds with any JSON body — returns a non-error envelope whose sole
text is the pretty-printed response body. -/
theorem c5_add_task (fetch : Fetch) (base : String) (resp : Response) (data : JsonValue)
    (hfetch : fetch (addTaskRequest base [("name", JsonValue.str "Buy milk")]) = Except.ok resp)
    (hjson : resp.json = Except.ok data) :
    handleCallTool fetch base "add_task" [("name", JsonValue.str "Buy milk")] =
      ({ content := [{ type := "text", text := jsonStringifyPretty data }], isError := false },
       [{ url := base
        , method := "POST"
        , headers := [("Content-Type", "application/json")]
        , body := some "\x7b\"name\":\"Buy milk\"\x7d" }]) := by
  have hreq : addTaskRequest base [("name", JsonValue.str "Buy milk")] =
      { url := base
      , method := "POST"
      , headers := [("Content-Type", "application/json")]
      , body := some "\x7b\"name\":\"Buy milk\"\x7d" } := rfl
  rw [← hreq]
  simp [handleCallTool, callToolTry, jsonOutcome, hfetch, hjson, jsonEnvelope]

/-- Witness for C5 with a concrete store response. -/
theorem c5_add_task_witness :
    handleCallTool
        (fun _ => Except.ok
          { status := 200, json := Except.ok (JsonValue.obj [("id", JsonValue.str "t1")]) })
        "http://store/tasks" "add_task" [("name", JsonValue.str "Buy milk")] =
      ({ content := [{ type := "text", text := "\x7b\n  \"id\": \"t1\"\n\x7d" }], isError := false },
       [{ url := "http://store/tasks"
        , method := "POST"
        , headers := [("Content-Type", "application/json")]
        , body := some "\x7b\"name\":\"Buy milk\"\x7d" }]) :=
  c5_add_task _ "http://store/tasks"
    { status := 200, json := Except.ok (JsonValue.obj [("id", JsonValue.str "t1")]) }
    (JsonValue.obj [("id", JsonValue.str "t1")]) rfl rfl

/-- Claim C6: every update_task invocation issues exactly one PATCH request
to the base address extended by `/` and the task id, whose body is the
serialization of all arguments except `task_id`, forwarded verbatim; in
particular the example bag with `task_id = "abc123"` and `done = true`
patches `<base>/abc123` with body dropping only task_id. -/
theorem c6_update_task (fetch : Fetch) (base : String) (args : Args) :
    (handleCallTool fetch base "update_task" args).2 =
        [{ url := base ++ "/" ++ jsTemplate (getArg "task_id" args)
         , method := "PATCH"
         , headers := [("Content-Type", "application/json")]
         , body := some (jsonStringify (JsonValue.obj (removeTaskId args))) }] ∧
    updateTaskRequest base [("task_id", JsonValue.str "abc123"), ("done", JsonValue.bool true)] =
      { url := base ++ "/abc123"
      , method := "PATCH"
      , headers := [("Content-Type", "application/json")]
      , body := some "\x7b\"done\":true\x7d" } := by
  constructor
  · rw [handleCallTool_snd]
    simp [callToolTry, jsonOutcome_snd, updateTaskRequest, updateTaskBody]
  · simp [updateTaskRequest, updateTaskBody, removeTaskId, getArg, jsTemplate, jsToString,
      String.append_assoc]
    rfl

/-- Claim C7: the outcome of a delete_task invocation depends only on the
transport-level success flag of the response and the task id — the body is
never read: a 2xx response yields the fixed success text, any other status
the fixed failure text, and in both cases the error flag is false. -/
theorem c7_delete_task (fetch : Fetch) (base : String) (args : Args) (resp : Response)
    (hfetch : fetch (deleteTaskRequest base args) = Except.ok resp) :
    (handleCallTool fetch base "delete_task" args).1 =
      { content :=
          [{ type := "text"
           , text :=
              if resp.ok then
                "Task " ++ jsTemplate (getArg "task_id" args) ++ " deleted successfully"
              else
                "Failed to delete task " ++ jsTemplate (getArg "task_id" args) }]
      , isError := false } := by
  simp [handleCallTool, callToolTry, hfetch, deleteEnvelope]

/-- Witness for C7: a 200 response yields the success text, a 404 response
the failure text, neither reading the (here malformed) body. -/
theorem c7_delete_task_witness :
    (handleCallTool (fun _ => Except.ok { status := 200, json := Except.error "empty body" })
        "http://b" "delete_task" [("task_id", JsonValue.str "abc123")]).1 =
      { content := [{ type := "text", text := "Task abc123 deleted successfully" }]
      , isError := false } ∧
    (handleCallTool (fun _ => Except.ok { status := 404, json := Except.error "empty body" })
        "http://b" "delete_task" [("task_id", JsonValue.str "abc123")]).1 =
      { content := [{ type := "text", text := "Failed to delete task abc123" }]
      , isError := false } :=
  ⟨c7_delete_task _ _ _ { status := 200, json := Except.error "empty body" } rfl,
   c7_delete_task _ _ _ { status := 404, json := Except.error "empty body" } rfl⟩

/-- Claim C8: for the three JSON-returning tools, a response whose status is
not 2xx but whose body is valid JSON is not a dispatch failure: the envelope
is non-error and carries the pretty-printed body, exactly as on success. -/
theorem c8_non2xx_json (fetch : Fetch) (base : String) (args : Args)
    (resp : Response) (data : JsonValue)
    (hjson : resp.json = Except.ok data) (_hstatus : resp.ok = false) :
    (fetch (addTaskRequest base args) = Except.ok resp →
      (handleCallTool fetch base "add_task" args).1 =
        { content := [{ type := "text", text := jsonStringifyPretty data }], isError := false }) ∧
    (fetch (listTasksRequest base args) = Except.ok resp →
      (handleCallTool fetch base "list_tasks" args).1 =
        { content := [{ type := "text", text := jsonStringifyPretty data }], isError := false }) ∧
    (fetch (updateTaskRequest base args) = Except.ok resp →
      (handleCallTool fetch base "update_task" args).1 =
        { content := [{ type := "text", text := jsonStringifyPretty data }], isError := false }) := by
  refine ⟨fun hf => ?_, fun hf => ?_, fun hf => ?_⟩ <;>
    simp [handleCallTool, callToolTry, jsonOutcome, hf, hjson, jsonEnvelope]

/-- Witness for C8 with a 404 response carrying a JSON error body. -/
theorem c8_non2xx_json_witness :
    ((handleCallTool
        (fun _ => Except.ok
          { status := 404, json := Except.ok (JsonValue.obj [("code", JsonValue.num 404)]) })
        "http://b" "add_task" []).1 =
      { content := [{ type := "text", text := "\x7b\n  \"code\": 404\n\x7d" }], isError := false }) ∧
    ((handleCallTool
        (fun _ => Except.ok
          { status := 404, json := Except.ok (JsonValue.obj [("code", JsonValue.num 404)]) })
        "http://b" "list_tasks" []).1 =
      { content := [{ type := "text", text := "\x7b\n  \"code\": 404\n\x7d" }], isError := false }) ∧
    ((handleCallTool
        (fun _ => Except.ok
          { status := 404, json := Except.ok (JsonValue.obj [("code", JsonValue.num 404)]) })
        "http://b" "update_task" []).1 =
      { content := [{ type := "text", text := "\x7b\n  \"code\": 404\n\x7d" }], isError := false }) := by
  have h := c8_non2xx_json
    (fun _ => Except.ok
      { status := 404, json := Except.ok (JsonValue.obj [("code", JsonValue.num 404)]) })
    "http://b" []
    { status := 404, json := Except.ok (JsonValue.obj [("code", JsonValue.num 404)]) }
    (JsonValue.obj [("code", JsonValue.num 404)]) rfl rfl
  exact ⟨h.1 rfl, h.2.1 rfl, h.2.2 rfl⟩

/-- A key absent from every pair of the bag is not found. -/
theorem getArg_eq_none (k : String) (l : Args) (h : ∀ kv ∈ l, kv.1 ≠ k) :
    getArg k l = none := by
  induction l with
  | nil => rfl
  | cons kv rest ih =>
    obtain ⟨a, v⟩ := kv
    have ha : a ≠ k := h (a, v) (List.mem_cons_self _ _)
    have hrest : ∀ kv ∈ rest, kv.1 ≠ k := fun kv hm => h kv (List.mem_cons_of_mem _ hm)
    simp [getArg, ih hrest, Ne.symm ha]

/-- Looking a key up after dropping the falsy-valued entries of a
duplicate-free bag returns the entry exactly when it was truthy. -/
theorem getArg_filter_truthy (k : String) (l : Args) (h : (l.map Prod.fst).Nodup) :
    getArg k (l.filter fun kv => jsTruthy kv.2) =
      (getArg k l).bind fun v => if jsTruthy v then some v else none := by
  induction l with
  | nil => rfl
  | cons kv rest ih =>
    obtain ⟨a, v⟩ := kv
    have hnotin : a ∉ rest.map Prod.fst := (List.nodup_cons.mp h).1
    have hnd : (rest.map Prod.fst).Nodup := (List.nodup_cons.mp h).2
    by_cases hk : k = a
    · subst hk
      by_cases htv : jsTruthy v
      · simp [List.filter_cons, htv, getArg]
      · have hmem : ∀ kv ∈ rest.filter (fun kv => jsTruthy kv.2), kv.1 ≠ k := by
          intro kv hm heq
          have hkv : kv ∈ rest := List.mem_of_mem_filter hm
          exact hnotin (heq ▸ List.mem_map_of_mem Prod.fst hkv)
        simp [List.filter_cons, htv, getArg, getArg_eq_none k _ hmem]
    · by_cases htv : jsTruthy v <;>
        simp [List.filter_cons, htv, getArg, hk, ih hnd]

/-- A conditional append sees a falsy-filtered optional value exactly as the
original optional value. -/
theorem paramEntry_bind (key : String) (o : Option JsonValue) :
    paramEntry key (o.bind fun v => if jsTruthy v then some v else none) =
      paramEntry key o := by
  cases o with
  | none => rfl
  | some v => by_cases htv : jsTruthy v <;> simp [paramEntry, htv]

/-- Claim C9: in a list_tasks invocation, a supplied but falsy parameter
(empty filter or sort string, page 0) is treated exactly as an absent one —
over a duplicate-free bag, dropping the falsy entries does not change the
request URL — and when all three are falsy the URL is the bare base address
with no question mark. -/
theorem c9_falsy_params (base : String) (args : Args)
    (h : (args.map Prod.fst).Nodup) :
    listTasksUrl base args = listTasksUrl base (args.filter fun kv => jsTruthy kv.2) ∧
    listTasksUrl base
        [("filter", JsonValue.str ""), ("sort", JsonValue.str ""), ("page", JsonValue.num 0)] =
      base := by
  constructor
  · simp [listTasksUrl, listTasksParams, getArg_filter_truthy _ _ h, paramEntry_bind]
  · rfl

/-- Witness for C9: a bag with falsy filter and page and truthy sort. -/
theorem c9_falsy_params_witness :
    listTasksUrl "http://b"
        [("filter", JsonValue.str ""), ("sort", JsonValue.str "ok"), ("page", JsonValue.num 0)] =
      listTasksUrl "http://b"
        ([("filter", JsonValue.str ""), ("sort", JsonValue.str "ok"),
          ("page", JsonValue.num 0)].filter fun kv => jsTruthy kv.2) ∧
    listTasksUrl "http://b"
        [("filter", JsonValue.str ""), ("sort", JsonValue.str ""), ("page", JsonValue.num 0)] =
      "http://b" :=
  c9_falsy_params "http://b" _ (by decide)

/-- The delete_task case issues exactly its one request. -/
theorem callToolTry_delete_snd (fetch : Fetch) (base : String) (args : Args) :
    (callToolTry fetch base "delete_task" args).2 = [deleteTaskRequest base args] := by
  simp only [callToolTry]
  norm_num
  cases hf : fetch (deleteTaskRequest base args) <;> simp

/-- Claim C10: an update_task or delete_task invocation whose bag lacks
task_id does not fail locally: the request is still issued, with the URL path
segment interpolated from the undefined value, to `<base>/undefined`. -/
theorem c10_missing_task_id (fetch : Fetch) (base : String) (args : Args)
    (h : getArg "task_id" args = none) :
    (handleCallTool fetch base "update_task" args).2 =
        [{ url := base ++ "/undefined"
         , method := "PATCH"
         , headers := [("Content-Type", "application/json")]
         , body := some (updateTaskBody args) }] ∧
    (handleCallTool fetch base "delete_task" args).2 =
        [{ url := base ++ "/undefined", method := "DELETE", headers := [], body := none }] := by
  constructor
  · rw [handleCallTool_snd]
    simp [callToolTry, jsonOutcome_snd, updateTaskRequest, jsTemplate, h, String.append_assoc]
  · rw [handleCallTool_snd, callToolTry_delete_snd]
    simp [deleteTaskRequest, jsTemplate, h, String.append_assoc]

/-- Witness for C10 at the empty argument bag. -/
theorem c10_missing_task_id_witness :
    (handleCallTool (fun _ => Except.error "down") "http://b" "update_task" []).2 =
        [{ url := "http://b/undefined"
         , method := "PATCH"
         , headers := [("Content-Type", "application/json")]
         , body := some "\x7b\x7d" }] ∧
    (handleCallTool (fun _ => Except.error "down") "http://b" "delete_task" []).2 =
        [{ url := "http://b/undefined", method := "DELETE", headers := [], body := none }] :=
  c10_missing_task_id _ _ _ rfl
